import Mathlib

/-!
Verification development for the CiphERA demo repository: a gateway that
fans biometric registration and verification requests out to verifier
nodes, combines node votes into a quorum decision, and two verifier node
implementations (an exact-signature matcher and an embedding
nearest-neighbor matcher backed by an encoding cache).

The definitions below are shallow embeddings of the Python sources:

  * `signin_user`, `register_user` — gateway/main_api.py
  * `recognize_face`, `match_face`, `encode_known_faces`,
    `store_face_samples`, `slugify_name` — face_recognition/__init__.py
  * `node1_register`, `node1_verify` — node1/app.py
  * `node2_verify`, `load_users`, `classifier_lookup` — node2/app.py

External collaborators (the face-embedding extractor, the Euclidean
distance function of the face_recognition library, SHA-256, JSON parsing,
wall-clock time, HTTP transport outcomes) are modelled as explicit
function or data parameters, following the boundary treatment of the
design: they are capabilities the code consumes, not logic it contains.
Distances and probabilities are modelled as rationals.
-/

namespace Ciphera

/-- Raw byte payloads (image samples) modelled as lists of naturals. -/
abbrev Bytes := List Nat

/-- Characters stripped by the Python `str.strip()` calls in the sources. -/
def stripChars (l : List Char) : List Char :=
  ((l.dropWhile Char.isWhitespace).reverse.dropWhile Char.isWhitespace).reverse

/-- Model of Python `str.strip()` (used to normalize every profile field). -/
def pyStrip (s : String) : String :=
  String.mk (stripChars s.data)

/-- A stored `classification` payload: the JSON value kept with a profile.
Python keeps either a parsed dict (with `label` and `probability` keys),
a bare string, or some other JSON value. -/
inductive ClassVal where
  | str (s : String)
  | obj (label : Option String) (probability : Option ℚ)
  | other
deriving DecidableEq

/-- The structured profile dictionary built by the register handlers
(gateway/main_api.py lines 230-244, node1/app.py lines 78-90,
node2/app.py lines 85-97).  The gateway variant also carries `face_slug`
and `sample_count`; node-built profiles leave them absent. -/
structure Profile where
  first_name : String
  middle_name : Option String := none
  last_name : String
  phone : String
  address_line1 : String
  address_line2 : Option String := none
  city : String
  state : Option String := none
  postal_code : String
  country : String
  classification : Option ClassVal := none
  face_slug : Option String := none
  sample_count : Option Nat := none
deriving DecidableEq

/-! ### Gateway verification (signin_user, gateway/main_api.py 302-405) -/

/-- The JSON body a node returns from `/verify-face`, as read by the
gateway (`vote.get("verified")`, `vote.get("user")`, ...). -/
structure VerifyPayload where
  verified : Bool := false
  user : Option String := none
  distance : Option ℚ := none
  profile : Option Profile := none
deriving DecidableEq

/-- Outcome of one outbound `/verify-face` call: either a decoded 2xx
response, or a `requests.RequestException` (transport failure, timeout,
or non-2xx raised by `raise_for_status`). -/
inductive VerifyOutcome where
  | ok (p : VerifyPayload)
  | transportError (reason : String)
deriving DecidableEq

/-- One entry of the gateway `votes` list: the node payload with the
`node` key added (success) or the error record
`\x7bnode, error, verified: false\x7d` (lines 326-327). -/
structure Vote where
  node : String
  verified : Bool := false
  user : Option String := none
  distance : Option ℚ := none
  profile : Option Profile := none
  error : Option String := none
deriving DecidableEq, Inhabited

/-- How the gateway loop turns one node call into one vote
(gateway/main_api.py lines 309-327): a decoded payload gets the node
name attached; a transport error becomes a negative vote with the error
reason recorded. -/
def voteOf : String × VerifyOutcome → Vote
  | (n, VerifyOutcome.ok p) =>
      { node := n, verified := p.verified, user := p.user,
        distance := p.distance, profile := p.profile }
  | (n, VerifyOutcome.transportError e) =>
      { node := n, verified := false, error := some e }

/-- First-seen-order deduplication, pass with an accumulator of the
names already emitted. -/
def dedupFirstAux : List String → List String → List String
  | _, [] => []
  | seen, n :: rest =>
    if seen.contains n then dedupFirstAux seen rest
    else n :: dedupFirstAux (n :: seen) rest

/-- First-seen-order deduplication: Python `list(dict.fromkeys(sources))`
(also the key order of a `collections.Counter`). -/
def dedupFirst (l : List String) : List String := dedupFirstAux [] l

/-- Python `min` over a nonempty list of rationals (0 on the empty list,
which the call sites never pass). -/
def minD : List ℚ → ℚ
  | [] => 0
  | [d] => d
  | d :: rest => min d (minD rest)

/-- Model of Python `round(x, 4)` on the metric values (rational
rounding of the float operation). -/
def round4 (q : ℚ) : ℚ := (round (q * 10000) : ℤ) / 10000

/-- One element of the aggregated profile `entries` list: source node
plus the profile that node reported. -/
structure AggProfileEntry where
  node : String
  profile : Profile
deriving DecidableEq

/-- The aggregated profile returned on quorum success
(gateway/main_api.py lines 356-364). -/
structure AggProfile where
  email : Option String
  sources : List String
  entries : List AggProfileEntry
  classification : Option ClassVal := none
deriving DecidableEq

/-- The metrics block (gateway/main_api.py lines 372-383). -/
structure Metrics where
  best_distance : ℚ
  average_distance : ℚ
  confidence : ℚ
  positive_votes : Nat
  required_majority : Nat
deriving DecidableEq

/-- The claims payload signed into the session token
(gateway/main_api.py lines 386-393).  Issuance time is an input; the
signing itself (jwt.encode with the shared secret) is external, so the
token is modelled by its claims. -/
structure Claims where
  user : Option String
  nodes : List String
  profile : Option AggProfile
  metrics : Option Metrics
  iat : Nat
  exp : Nat
deriving DecidableEq

/-- The gateway signin response body (both branches). -/
structure SigninResponse where
  authenticated : Bool
  user : Option String := none
  token : Option Claims := none
  votes : List Vote
  profile : Option AggProfile := none
  metrics : Option Metrics := none
deriving DecidableEq

/-- First classification value accepted by the aggregation loop: the
code takes the first profile entry whose `classification` is not None
and not the empty string (gateway/main_api.py lines 348-351). -/
def classificationCandidate (entries : List AggProfileEntry) : Option ClassVal :=
  (entries.filterMap (fun e =>
    match e.profile.classification with
    | some (ClassVal.str "") => none
    | some c => some c
    | none => none)).head?

/-- Shallow embedding of `signin_user` (gateway/main_api.py 302-405).
`calls` pairs each configured node with the outcome of its single
`/verify-face` call, in node order; `now` is the wall clock read for
token issuance. -/
def signin_user (now : Nat) (calls : List (String × VerifyOutcome)) : SigninResponse :=
  let votes := calls.map voteOf
  let positive_votes := votes.filter (fun v => v.verified)
  let required_majority := calls.length / 2 + 1
  if positive_votes.length ≥ required_majority then
    let primary_vote := positive_votes.headD default
    let user_email := primary_vote.user
    let sources0 := positive_votes.filterMap
      (fun v => if v.node ≠ "" then some v.node else none)
    let sources := if sources0 ≠ [] then dedupFirst sources0 else sources0
    let entries := positive_votes.filterMap
      (fun v => v.profile.map (fun p => AggProfileEntry.mk v.node p))
    let classification_value := classificationCandidate entries
    let aggregated_profile : Option AggProfile :=
      if entries ≠ [] then
        some { email := user_email, sources := sources, entries := entries,
               classification := classification_value }
      else none
    let distance_values := positive_votes.filterMap (fun v => v.distance)
    let metrics : Option Metrics :=
      if distance_values ≠ [] then
        let best_distance := minD distance_values
        let average_distance := distance_values.sum / (distance_values.length : ℚ)
        let confidence := max 0 (min 1 (1 - best_distance))
        some { best_distance := round4 best_distance,
               average_distance := round4 average_distance,
               confidence := round4 confidence,
               positive_votes := positive_votes.length,
               required_majority := required_majority }
      else none
    let payload : Claims :=
      { user := user_email, nodes := positive_votes.map (fun v => v.node),
        profile := aggregated_profile, metrics := metrics,
        iat := now, exp := now + 3600 }
    { authenticated := true, user := user_email, token := some payload,
      votes := votes, profile := aggregated_profile, metrics := metrics }
  else
    { authenticated := false, votes := votes }

/-! ### Face matcher (face_recognition/__init__.py)

The embedding extractor and the Euclidean distance of the
face_recognition library are external (spec section 6), so embeddings
are an arbitrary type `α` and the distance function `dist` is a
parameter; the code only consumes distances, never builds them. -/

/-- The pickled encoding cache: parallel `names`/`encodings` sequences
(face_recognition/__init__.py line 176). -/
structure Cache (α : Type) where
  names : List String
  encodings : List α
deriving DecidableEq

/-- `face_recognition.face_distance(encodings, probe)`: the distance of
the probe to every cached embedding, in cache order. -/
def face_distance {α : Type} (dist : α → α → ℚ) (encs : List α) (probe : α) : List ℚ :=
  encs.map (fun e => dist e probe)

/-- `face_recognition.compare_faces(encodings, probe, tolerance)`:
one boolean per cached embedding, true iff its distance is within
tolerance. -/
def compare_faces {α : Type} (dist : α → α → ℚ) (encs : List α) (probe : α)
    (tol : ℚ) : List Bool :=
  (face_distance dist encs probe).map (fun d => decide (d ≤ tol))

/-- The generator feeding the vote counter
(face_recognition/__init__.py lines 189-193): the identity tag of every
cached entry whose comparison came back true, in cache order. -/
def votedNames (comparisons : List Bool) (names : List String) : List String :=
  (comparisons.zip names).filterMap (fun p => if p.1 then some p.2 else none)

/-- `collections.Counter` over the voting tags: key order is first
insertion (first voting occurrence), value is the multiplicity. -/
def countVotes (vn : List String) : List (String × Nat) :=
  (dedupFirst vn).map (fun n => (n, vn.count n))

/-- Python `max(items, key=itemgetter(1))` as used by
`Counter.most_common(1)`: the first item with the largest count. -/
def firstArgmax : List (String × Nat) → Option (String × Nat)
  | [] => none
  | x :: xs =>
    match firstArgmax xs with
    | none => some x
    | some y => if y.2 > x.2 then some y else some x

/-- Python `min(enumerate(distances), key=itemgetter(1))`: index and
value of the first minimal distance (the call site guards nonemptiness;
the empty case is unreachable). -/
def firstArgmin : List ℚ → Nat × ℚ
  | [] => (0, 0)
  | [d] => (0, d)
  | d :: rest =>
    let p := firstArgmin rest
    if p.2 < d then (p.1 + 1, p.2) else (0, d)

/-- Python `max` over a list of counts (0 on empty). -/
def maxD : List Nat → Nat
  | [] => 0
  | c :: rest => max c (maxD rest)

/-- Shallow embedding of `_recognize_face`
(face_recognition/__init__.py lines 181-215): vote counting across the
cache, `most_common(1)` winner selection, winner distance as the
minimum over all of the winner entries, and the pure nearest-neighbor
fallback when no entry votes. -/
def recognize_face {α : Type} (dist : α → α → ℚ) (loaded : Cache α) (probe : α)
    (tol : ℚ) : Option String × Option ℚ :=
  let comparisons := compare_faces dist loaded.encodings probe tol
  let vn := votedNames comparisons loaded.names
  let distances := face_distance dist loaded.encodings probe
  if distances = [] then (none, none)
  else
    match firstArgmax (countVotes vn) with
    | some w =>
      let winner := w.1
      let winner_distances :=
        ((distances.zip loaded.names).filter (fun p => p.2 = winner)).map Prod.fst
      let best_distance :=
        if winner_distances ≠ [] then minD winner_distances else minD distances
      (some winner, some best_distance)
    | none =>
      let best := firstArgmin distances
      if best.2 ≤ tol then (some (loaded.names.getD best.1 ""), some best.2)
      else (none, none)

/-- Spec-side matcher, written from the natural-language description of
the vote-then-distance strategy with the tie-break stated over voting
entries: each cached entry within tolerance votes for its tag; the
winner is the tag with the most votes, ties broken by whichever tag
voted first (first voting entry in cache order); the reported distance
is the minimum distance among the winner voting entries; with no votes,
the globally closest entry is accepted only within tolerance. -/
def recognizeSpec {α : Type} (dist : α → α → ℚ) (loaded : Cache α) (probe : α)
    (tol : ℚ) : Option String × Option ℚ :=
  let distances := face_distance dist loaded.encodings probe
  let voters := (loaded.names.zip distances).filter (fun p => decide (p.2 ≤ tol))
  let votingTags := voters.map Prod.fst
  if voters ≠ [] then
    let tags := dedupFirst votingTags
    let maxVotes := maxD (tags.map (fun t => votingTags.count t))
    let winner := (tags.find? (fun t => votingTags.count t = maxVotes)).getD ""
    let winnerVotingDistances := (voters.filter (fun p => p.1 = winner)).map Prod.snd
    (some winner, some (minD winnerVotingDistances))
  else if distances = [] then (none, none)
  else
    let best := firstArgmin distances
    if best.2 ≤ tol then (some (loaded.names.getD best.1 ""), some best.2)
    else (none, none)

/-- Spec-side matcher under the literal reading of the claimed
tie-break: among the tags with the most votes, the winner is the tag
whose first appearance in cache order (over all cached entries, voting
or not) is earliest. -/
def recognizeClaimLiteral {α : Type} (dist : α → α → ℚ) (loaded : Cache α) (probe : α)
    (tol : ℚ) : Option String × Option ℚ :=
  let distances := face_distance dist loaded.encodings probe
  let voters := (loaded.names.zip distances).filter (fun p => decide (p.2 ≤ tol))
  let votingTags := voters.map Prod.fst
  if voters ≠ [] then
    let maxVotes := maxD ((dedupFirst votingTags).map (fun t => votingTags.count t))
    let tied := (dedupFirst votingTags).filter (fun t => votingTags.count t = maxVotes)
    let winner := (loaded.names.find? (fun n => tied.contains n)).getD ""
    let winnerVotingDistances := (voters.filter (fun p => p.1 = winner)).map Prod.snd
    (some winner, some (minD winnerVotingDistances))
  else if distances = [] then (none, none)
  else
    let best := firstArgmin distances
    if best.2 ≤ tol then (some (loaded.names.getD best.1 ""), some best.2)
    else (none, none)

/-- The per-face dictionary `match_face` returns on success. -/
structure MatchResult where
  name : String
  distance : Option ℚ
deriving DecidableEq

/-- Failure modes of `match_face`: missing encodings file
(FileNotFoundError from `load_encodings`), or an empty image payload
(ValueError, unreachable from node2 which pre-checks the bytes). -/
inductive MatchError where
  | fileNotFound
  | valueError
deriving DecidableEq

/-- The loop of `match_face` (face_recognition/__init__.py 261-272):
recognize each detected face in order and return the first truthy
name. -/
def firstRecognized {α : Type} (dist : α → α → ℚ) (loaded : Cache α)
    (faces : List α) (tol : ℚ) : Option MatchResult :=
  match faces with
  | [] => none
  | f :: rest =>
    match recognize_face dist loaded f tol with
    | (some n, d) =>
      if n ≠ "" then some { name := n, distance := d }
      else firstRecognized dist loaded rest tol
    | (none, _) => firstRecognized dist loaded rest tol

/-- Shallow embedding of `match_face`
(face_recognition/__init__.py 236-272).  `extractProbe` is the external
extractor pipeline (face_locations plus face_encodings): the list of
embeddings of the faces detected in the probe image.  `encodingsFile`
is the on-disk cache, `none` when the encodings file does not exist. -/
def match_face {α : Type} (dist : α → α → ℚ) (extractProbe : Bytes → List α)
    (encodingsFile : Option (Cache α)) (image_bytes : Bytes)
    (tol : ℚ) : Except MatchError (Option MatchResult) :=
  if image_bytes = [] then Except.error MatchError.valueError
  else
    match encodingsFile with
    | none => Except.error MatchError.fileNotFound
    | some loaded =>
      let faces := extractProbe image_bytes
      if faces.isEmpty then Except.ok none
      else Except.ok (firstRecognized dist loaded faces tol)

/-! ### Training-set storage and cache rebuild
(face_recognition/__init__.py 43-84 and 107-178) -/

/-- The training directory: one entry per person slug with its stored
raw samples.  `store_face_samples` with `replace=True` removes any
prior directory for the slug and writes the new samples
(face_recognition/__init__.py 61-84); listing order of the surviving
directories is not semantically relevant. -/
def store_face_samples (dir : List (String × List Bytes)) (person_slug : String)
    (samples : List Bytes) : List (String × List Bytes) :=
  dir.filter (fun e => e.1 != person_slug) ++ [(person_slug, samples)]

/-- Shallow embedding of `encode_known_faces`
(face_recognition/__init__.py 107-178): rescan every stored sample of
every slug, collect one (tag, embedding) pair per detected face, and
replace the whole cache; raise RuntimeError when no encodings were
generated (modelled as the error branch, in which the cache file is
not rewritten). -/
def encode_known_faces {α : Type} (extract : Bytes → List α)
    (dir : List (String × List Bytes)) : Except String (Cache α) :=
  let entries := dir.flatMap (fun e => e.2.flatMap (fun b => (extract b).map (fun v => (e.1, v))))
  if entries.isEmpty then
    Except.error "No encodings generated. Improve dataset quality or detector settings."
  else
    Except.ok { names := entries.map Prod.fst, encodings := entries.map Prod.snd }

/-- Keep only lowercase ASCII letters and digits, the character class of
the slug regexes. -/
def isSlugChar (c : Char) : Bool := c.isLower || c.isDigit

/-- `re.sub(r"[^a-z0-9]+", "-", s)`: replace every maximal run of
non-slug characters by a single dash. -/
def dashifyRuns : List Char → List Char
  | [] => []
  | c :: rest =>
    if isSlugChar c then c :: dashifyRuns rest
    else
      match dashifyRuns rest with
      | '-' :: t => '-' :: t
      | t => '-' :: t

/-- `.strip("-")`. -/
def stripDashes (l : List Char) : List Char :=
  ((l.dropWhile (fun c => c = '-')).reverse.dropWhile (fun c => c = '-')).reverse

/-- Shallow embedding of `slugify_name`
(face_recognition/__init__.py 43-58).  The uuid fallback for an empty
slug is modelled by the `fresh` parameter (randomness is external). -/
def slugify_name (first_name last_name : String) (email : Option String := none)
    (fresh : String := "user-00000000") : String :=
  let base0 := String.intercalate "-" (([first_name, last_name].filter (fun s => s ≠ "")))
  let base := String.mk (stripDashes (dashifyRuns (base0.data.map Char.toLower)))
  let suffix :=
    match email with
    | none => ""
    | some e =>
      let localPart := (e.data.takeWhile (fun c => c ≠ '@')).map Char.toLower
      String.mk (localPart.filter isSlugChar)
  let slug :=
    if suffix ≠ "" then (if base ≠ "" then base ++ "-" ++ suffix else suffix)
    else base
  if slug = "" then fresh else slug

/-! ### Gateway registration (register_user, gateway/main_api.py 49-299)

Multipart form decoding and the face_samples upload plumbing (lines
94-156) are HTTP transport, excluded by the spec boundary; the decoded
field values and the collected sample payloads enter the model as
inputs.  The per-node HTTP calls enter as one outcome per configured
node. -/

/-- The decoded form fields of a gateway registration request.  A field
absent from the form is `none`. -/
structure RegisterForm where
  first_name : Option String := none
  last_name : Option String := none
  email : Option String := none
  phone : Option String := none
  address_line1 : Option String := none
  city : Option String := none
  postal_code : Option String := none
  country : Option String := none
  middle_name : Option String := none
  address_line2 : Option String := none
  state : Option String := none
  name : Option String := none
  classification : Option String := none
deriving DecidableEq

/-- The `_required` helper (gateway/main_api.py 53-60): strip a present
string; a missing or empty-after-strip field yields the empty string
(and is recorded as missing). -/
def requiredValue : Option String → String
  | none => ""
  | some s => pyStrip s

/-- The `_optional` helper (gateway/main_api.py 62-66): strip, then turn
the empty string into `none`. -/
def optValue : Option String → Option String
  | none => none
  | some s => let t := pyStrip s; if t = "" then none else some t

/-- The required fields in the order `_required` is called
(gateway/main_api.py 70-77). -/
def requiredPairs (form : RegisterForm) : List (String × Option String) :=
  [("first_name", form.first_name), ("last_name", form.last_name),
   ("email", form.email), ("phone", form.phone),
   ("address_line1", form.address_line1), ("city", form.city),
   ("postal_code", form.postal_code), ("country", form.country)]

/-- The `missing_fields` list accumulated by the `_required` calls. -/
def missingFields (form : RegisterForm) : List String :=
  ((requiredPairs form).filter (fun p => requiredValue p.2 == "")).map Prod.fst

/-- The re-normalization check of gateway/main_api.py line 189:
`all([first_name, last_name, phone, address_line1, city, postal_code,
country])` over the re-stripped values (email is not re-checked). -/
def requiredNonempty (form : RegisterForm) : Bool :=
  pyStrip (requiredValue form.first_name) != "" &&
  pyStrip (requiredValue form.last_name) != "" &&
  pyStrip (requiredValue form.phone) != "" &&
  pyStrip (requiredValue form.address_line1) != "" &&
  pyStrip (requiredValue form.city) != "" &&
  pyStrip (requiredValue form.postal_code) != "" &&
  pyStrip (requiredValue form.country) != ""

/-- `" ".join(filter(None, [first_name, middle_name, last_name]))`. -/
def joinNames (first : String) (middle : Option String) (last : String) : String :=
  String.intercalate " " (([first] ++ middle.toList ++ [last]).filter (fun s => s ≠ ""))

/-- Gateway configuration (environment variables FACE_SAMPLES_REQUIRED
and FACE_ENCODER_MODE). -/
structure GatewayConfig where
  samplesRequired : Nat := 10
  encoderMode : String := "cpu"
deriving DecidableEq

/-- The gateway-local durable matching state: the raw-sample training
directory and the pickled encodings file (none before the first
successful rebuild). -/
structure GatewayState (α : Type) where
  training : List (String × List Bytes)
  encodingsFile : Option (Cache α)
deriving DecidableEq

/-- The JSON body a node returns from a 2xx `/register` response, as the
gateway reads it (`result.get("status")`). -/
structure RegPayload where
  status : Option String := none
  user : Option String := none
  profile : Option Profile := none
deriving DecidableEq

/-- Outcome of one outbound `/register` call. -/
inductive RegOutcome where
  | ok (p : RegPayload)
  | transportError (reason : String)
deriving DecidableEq

/-- One entry of the gateway `results` list: the node payload with the
`node` key added, or the error record (gateway/main_api.py 246-275). -/
structure RegResult where
  node : String
  status : Option String := none
  user : Option String := none
  profile : Option Profile := none
  error : Option String := none
deriving DecidableEq

/-- How the broadcast loop turns one node call into one result entry. -/
def regResultOf : String × RegOutcome → RegResult
  | (n, RegOutcome.ok p) =>
      { node := n, status := p.status, user := p.user, profile := p.profile }
  | (n, RegOutcome.transportError e) =>
      { node := n, error := some e }

/-- The terminal errors of the gateway registration handler (raised as
HTTPException with the corresponding detail payloads). -/
inductive GatewayError where
  | validationError (message : String) (missing : Option (List String))
  | payloadError (message : String)
  | encodeError (message : String)
  | broadcastFailure (message : String) (results : List RegResult)
deriving DecidableEq

/-- The `training` summary block of a successful registration response
(gateway/main_api.py 287-292). -/
structure TrainingSummary where
  face_slug : String
  samples_saved : Nat
  encoder_mode : String
  expected_samples : Nat
deriving DecidableEq

/-- The successful gateway registration response body. -/
structure RegisterResponse where
  message : String
  results : List RegResult
  name : String
  email : String
  profile : Profile
  training : TrainingSummary
deriving DecidableEq

/-- The sample truncation of gateway/main_api.py lines 175-176. -/
def truncatedSamples (cfg : GatewayConfig) (samples : List Bytes) : List Bytes :=
  if cfg.samplesRequired ≠ 0 then samples.take cfg.samplesRequired else samples

/-- The person slug computed at gateway/main_api.py line 199 from the
normalized first/last name and the email. -/
def gatewaySlug (form : RegisterForm) : String :=
  slugify_name (pyStrip (requiredValue form.first_name))
    (pyStrip (requiredValue form.last_name)) (some (requiredValue form.email))

/-- Shallow embedding of the gateway `register_user` handler
(gateway/main_api.py 49-299) as a state-passing function: field
validation, sample-count policy, raw-sample persistence, synchronous
encoding-cache rebuild, then the per-node broadcast with its
at-least-one-stored success policy.  `parseClass` models `json.loads`
on the classification field (none = JSONDecodeError); OSError while
persisting samples is environmental and not modelled. -/
def register_user {α : Type} (cfg : GatewayConfig)
    (parseClass : String → Option ClassVal) (extract : Bytes → List α)
    (st : GatewayState α) (form : RegisterForm) (sample_payloads : List Bytes)
    (outcomes : List (String × RegOutcome)) :
    Except GatewayError RegisterResponse × GatewayState α :=
  let missing := missingFields form
  if missing ≠ [] then
    (Except.error (GatewayError.validationError
      "Missing required profile attributes." (some missing)), st)
  else if sample_payloads.isEmpty then
    (Except.error (GatewayError.payloadError
      "At least one face sample is required."), st)
  else if cfg.samplesRequired != 0 && sample_payloads.length < cfg.samplesRequired then
    (Except.error (GatewayError.payloadError
      "Insufficient face samples provided."), st)
  else
    let payloads := truncatedSamples cfg sample_payloads
    let first_name := pyStrip (requiredValue form.first_name)
    let middle_name := optValue (optValue form.middle_name)
    let last_name := pyStrip (requiredValue form.last_name)
    let email := requiredValue form.email
    let phone := pyStrip (requiredValue form.phone)
    let address_line1 := pyStrip (requiredValue form.address_line1)
    let address_line2 := optValue (optValue form.address_line2)
    let city := pyStrip (requiredValue form.city)
    let state := optValue (optValue form.state)
    let postal_code := pyStrip (requiredValue form.postal_code)
    let country := pyStrip (requiredValue form.country)
    if !(requiredNonempty form) then
      (Except.error (GatewayError.validationError
        "Missing required profile attributes." none), st)
    else
      let full_name := pyStrip
        (match optValue form.name with
         | some s => s
         | none => joinNames first_name middle_name last_name)
      let classification_payload :=
        match optValue form.classification with
        | none => none
        | some r => some ((parseClass r).getD (ClassVal.str r))
      let person_slug := gatewaySlug form
      let training1 := store_face_samples st.training person_slug payloads
      match encode_known_faces extract training1 with
      | Except.error e =>
        (Except.error (GatewayError.encodeError e),
         { training := training1, encodingsFile := st.encodingsFile })
      | Except.ok cache =>
        let st2 : GatewayState α := { training := training1, encodingsFile := some cache }
        let profile : Profile :=
          { first_name := first_name, middle_name := middle_name,
            last_name := last_name, phone := phone,
            address_line1 := address_line1, address_line2 := address_line2,
            city := city, state := state, postal_code := postal_code,
            country := country, classification := classification_payload,
            face_slug := some person_slug, sample_count := some payloads.length }
        let results := outcomes.map regResultOf
        let stored_nodes := results.filter (fun r => r.status == some "stored")
        if stored_nodes.isEmpty then
          (Except.error (GatewayError.broadcastFailure
            "Registration failed on all verifier nodes." results), st2)
        else
          (Except.ok
            { message := "Registration broadcast complete.", results := results,
              name := full_name, email := email, profile := profile,
              training := { face_slug := person_slug, samples_saved := payloads.length,
                            encoder_mode := cfg.encoderMode,
                            expected_samples := cfg.samplesRequired } }, st2)

/-! ### Verifier nodes (node1/app.py and node2/app.py) -/

/-- The legacy `embedding` value a node1 record may carry instead of a
signature: either a string (accepted for backwards compatibility) or
some other JSON value (ignored). -/
inductive EmbVal where
  | estr (s : String)
  | other
deriving DecidableEq

/-- A node1 enrollment record (node1/app.py 94-98; legacy records may
hold `embedding` instead of `signature`). -/
structure Node1Record where
  name : String
  signature : Option String := none
  embedding : Option EmbVal := none
  profile : Profile
deriving DecidableEq

/-- A node2 enrollment record (node2/app.py 105-110). -/
structure Node2Record where
  name : String
  face_slug : Option String := none
  sample_count : Option Nat := none
  profile : Profile
deriving DecidableEq

/-- `json.load` on the users store file degrading to the empty map on
JSONDecodeError (node1/app.py 18-25, node2/app.py 26-33): `decoded` is
the parse outcome of the file content, `none` when the content is
corrupt or undecodable. -/
def load_users {R : Type} (decoded : Option (List (String × R))) : List (String × R) :=
  decoded.getD []

/-- Python dict assignment `users[email] = record`: replace in place
when the key exists (insertion position kept), else append. -/
def setUser {R : Type} (users : List (String × R)) (key : String) (record : R) :
    List (String × R) :=
  if users.any (fun u => u.1 == key) then
    users.map (fun u => if u.1 == key then (key, record) else u)
  else users ++ [(key, record)]

/-- The decoded form fields of a node `/register` request.  FastAPI
rejects requests missing a `Form(...)` field, so required fields are
plain strings (possibly empty); optional fields are `Option`. -/
structure NodeRegisterForm where
  first_name : String
  last_name : String
  email : String
  phone : String
  address_line1 : String
  city : String
  postal_code : String
  country : String
  middle_name : Option String := none
  address_line2 : Option String := none
  state : Option String := none
  name : Option String := none
  classification : Option String := none
deriving DecidableEq

/-- `(value or "").strip() or None` — the node-side normalization of an
optional field. -/
def nodeOpt : Option String → Option String
  | none => none
  | some s => let t := pyStrip s; if t = "" then none else some t

/-- The node `/register` success body. -/
structure NodeRegisterResponse where
  status : String
  user : String
  profile : Profile
deriving DecidableEq

/-- The profile dictionary a node register handler builds from the
normalized form fields (node1/app.py 78-90, node2/app.py 85-97). -/
def nodeProfile (parseClass : String → Option ClassVal) (form : NodeRegisterForm) : Profile :=
  { first_name := pyStrip form.first_name,
    middle_name := nodeOpt form.middle_name,
    last_name := pyStrip form.last_name,
    phone := pyStrip form.phone,
    address_line1 := pyStrip form.address_line1,
    address_line2 := nodeOpt form.address_line2,
    city := pyStrip form.city,
    state := nodeOpt form.state,
    postal_code := pyStrip form.postal_code,
    country := pyStrip form.country,
    classification :=
      match form.classification with
      | none => none
      | some r => if r = "" then none else some ((parseClass r).getD (ClassVal.str r)) }

/-- The `full_name` computation shared by both node register handlers:
`(name or " ".join(filter(None, [first, middle, last]))).strip()`. -/
def nodeFullName (form : NodeRegisterForm) : String :=
  pyStrip
    (match form.name with
     | some s =>
       if s ≠ "" then s
       else joinNames (pyStrip form.first_name) (nodeOpt form.middle_name) (pyStrip form.last_name)
     | none =>
       joinNames (pyStrip form.first_name) (nodeOpt form.middle_name) (pyStrip form.last_name))

/-- The `all([...])` validation of the node register handlers
(node1/app.py 68, node2/app.py 75): every required field non-empty
after strip (the email is not checked). -/
def nodeRequiredNonempty (form : NodeRegisterForm) : Bool :=
  pyStrip form.first_name != "" &&
  pyStrip form.last_name != "" &&
  pyStrip form.phone != "" &&
  pyStrip form.address_line1 != "" &&
  pyStrip form.city != "" &&
  pyStrip form.postal_code != "" &&
  pyStrip form.country != ""

/-- Shallow embedding of the node1 `/register` handler
(node1/app.py 33-101): hash the enrollment image, validate the
normalized profile, and overwrite the identity record wholesale.
`sha256hex` models `hashlib.sha256(...).hexdigest()`. -/
def node1_register (sha256hex : Bytes → String)
    (parseClass : String → Option ClassVal)
    (users : List (String × Node1Record)) (form : NodeRegisterForm)
    (image_bytes : Bytes) :
    Except (Nat × String) NodeRegisterResponse × List (String × Node1Record) :=
  if image_bytes = [] then (Except.error (400, "No image provided."), users)
  else
    let signature := sha256hex image_bytes
    if !(nodeRequiredNonempty form) then
      (Except.error (400, "Missing required profile attributes."), users)
    else
      let profile := nodeProfile parseClass form
      let record : Node1Record :=
        { name := nodeFullName form, signature := some signature, profile := profile }
      let users1 := setUser users form.email record
      (Except.ok { status := "stored", user := form.email, profile := profile }, users1)

/-- A node `/verify-face` response: an HTTPException, or a structured
verdict body. -/
structure VerifyVerdict where
  verified : Bool
  user : Option String := none
  distance : Option ℚ := none
  profile : Option Profile := none
  reason : Option String := none
  candidate : Option String := none
deriving DecidableEq

/-- Result of a node `/verify-face` request. -/
inductive NodeVerifyResult where
  | httpError (status : Nat) (detail : String)
  | ok (v : VerifyVerdict)
deriving DecidableEq

/-- The stored signature a node1 verify lookup compares against
(node1/app.py 117-121): the `signature` field, falling back to a legacy
string `embedding` when the signature is missing or empty. -/
def node1_effective_sig (r : Node1Record) : Option String :=
  let base := r.signature
  if base = none ∨ base = some "" then
    match r.embedding with
    | some (EmbVal.estr s) => some s
    | some EmbVal.other => none
    | none => none
  else base

/-- The match test of the node1 verify loop (node1/app.py 122):
`if stored_signature and stored_signature == probe_signature`. -/
def node1_sig_matches (probe_signature : String) (r : Node1Record) : Bool :=
  match node1_effective_sig r with
  | some s => s != "" && s == probe_signature
  | none => false

/-- Shallow embedding of the node1 `/verify-face` handler
(node1/app.py 104-130): exact-signature matching with distance fixed at
0.0, `no_enrollments` on an empty store, `no_match` otherwise. -/
def node1_verify (sha256hex : Bytes → String)
    (users : List (String × Node1Record)) (image_bytes : Bytes) : NodeVerifyResult :=
  if image_bytes = [] then NodeVerifyResult.httpError 400 "No image provided."
  else
    let probe_signature := sha256hex image_bytes
    if users.isEmpty then
      NodeVerifyResult.ok { verified := false, reason := some "no_enrollments" }
    else
      match users.find? (fun u => node1_sig_matches probe_signature u.2) with
      | some u =>
        NodeVerifyResult.ok
          { verified := true, user := some u.1, distance := some 0,
            profile := some u.2.profile }
      | none => NodeVerifyResult.ok { verified := false, reason := some "no_match" }

/-- The stored slug a node2 verify lookup compares against
(node2/app.py 137): `record.get("face_slug") or
record.get("profile", \x7b\x7d).get("face_slug")`. -/
def node2_stored_slug (r : Node2Record) : Option String :=
  match r.face_slug with
  | some s => if s ≠ "" then some s else r.profile.face_slug
  | none => r.profile.face_slug

/-- The match test of the node2 verify loop (node2/app.py 138):
`if stored_slug and stored_slug == recognized_slug`. -/
def node2_slug_matches (recognized_slug : String) (r : Node2Record) : Bool :=
  match node2_stored_slug r with
  | some s => s != "" && s == recognized_slug
  | none => false

/-- Shallow embedding of the node2 `/verify-face` handler
(node2/app.py 116-150): run the embedding matcher over the shared
encoding cache, then map the recognized slug back to an enrolled
identity. -/
def node2_verify {α : Type} (dist : α → α → ℚ) (extractProbe : Bytes → List α)
    (users : List (String × Node2Record)) (encodingsFile : Option (Cache α))
    (image_bytes : Bytes) : NodeVerifyResult :=
  if image_bytes = [] then NodeVerifyResult.httpError 400 "No image provided."
  else if users.isEmpty then
    NodeVerifyResult.ok { verified := false, reason := some "no_enrollments" }
  else
    match match_face dist extractProbe encodingsFile image_bytes (mkRat 9 20) with
    | Except.error MatchError.fileNotFound =>
      NodeVerifyResult.ok { verified := false, reason := some "encodings_missing" }
    | Except.error MatchError.valueError =>
      NodeVerifyResult.httpError 500 "Internal Server Error"
    | Except.ok none =>
      NodeVerifyResult.ok { verified := false, reason := some "no_match" }
    | Except.ok (some m) =>
      match users.find? (fun u => node2_slug_matches m.name u.2) with
      | some u =>
        NodeVerifyResult.ok
          { verified := true, user := some u.1, distance := m.distance,
            profile := some u.2.profile }
      | none =>
        NodeVerifyResult.ok
          { verified := false, reason := some "unregistered_match",
            candidate := some m.name }

/-- One match entry of a classifier lookup response. -/
structure LookupMatch where
  email : String
  name : String
  profile : Profile
  probability : Option ℚ
deriving DecidableEq

/-- A node `/classifier-lookup` response body (`matchEntries` models the
`matches` key; `matches` is a reserved word in Lean). -/
structure LookupResponse where
  label : String
  count : Nat
  matchEntries : List LookupMatch
deriving DecidableEq

/-- The classifier label stored in a record (node1/app.py 147-153,
node2/app.py 167-173): the `label` key of a dict classification, the
string itself for a bare string, nothing otherwise. -/
def classifierLabelOf : Option ClassVal → Option String × Option ℚ
  | some (ClassVal.obj lbl prob) => (lbl, prob)
  | some (ClassVal.str s) => (some s, none)
  | some ClassVal.other => (none, none)
  | none => (none, none)

/-- Shallow embedding of the `/classifier-lookup` handler, identical in
node1/app.py 133-165 and node2/app.py 153-185; `getName`/`getProfile`
project the per-node record type. -/
def classifier_lookup {R : Type} (getName : R → String) (getProfile : R → Profile)
    (users : List (String × R)) (payload_label : Option String) :
    Except (Nat × String) LookupResponse :=
  match payload_label with
  | none => Except.error (400, "Classifier label is required.")
  | some l =>
    if l = "" then Except.error (400, "Classifier label is required.")
    else
      let label := pyStrip l
      let found := users.filterMap (fun u =>
        let cl := classifierLabelOf (getProfile u.2).classification
        match cl.1 with
        | some s =>
          if s != "" && pyStrip s == label then
            some { email := u.1, name := getName u.2,
                   profile := getProfile u.2, probability := cl.2 }
          else none
        | none => none)
      Except.ok { label := label, count := found.length, matchEntries := found }

/-- Substring test, used to state whether an error message mentions a
field name. -/
def hasSubstr (s pat : String) : Bool :=
  (List.range (s.length + 1)).any (fun i => pat.data.isPrefixOf (s.data.drop i))

/-! ## Helper lemmas -/

/-- The authentication flag of the signin response is exactly the quorum
test on the filtered positive votes. -/
theorem signin_authenticated (now : Nat) (calls : List (String × VerifyOutcome)) :
    (signin_user now calls).authenticated
      = decide (((calls.map voteOf).filter (fun v => v.verified)).length
          ≥ calls.length / 2 + 1) := by
  simp only [signin_user]
  split
  next h => simp [h]
  next h => simp [h]

/-! ## Claims -/

/-- C1: for the gateway verification operation with N configured nodes,
the required majority equals floor(N/2)+1, and the response has
authenticated = true iff the number of votes with verified = true is at
least floor(N/2)+1; in particular exactly floor(N/2)+1 positive votes
authenticates and one fewer does not. -/
theorem gateway_quorum_rule (now : Nat) (calls : List (String × VerifyOutcome)) :
    ((signin_user now calls).authenticated = true ↔
      (calls.map voteOf).countP (fun v => v.verified) ≥ calls.length / 2 + 1)
    ∧ ((calls.map voteOf).countP (fun v => v.verified) = calls.length / 2 + 1 →
      (signin_user now calls).authenticated = true)
    ∧ ((calls.map voteOf).countP (fun v => v.verified) = calls.length / 2 →
      (signin_user now calls).authenticated = false) := by
  have hc : (calls.map voteOf).countP (fun v => v.verified)
      = ((calls.map voteOf).filter (fun v => v.verified)).length :=
    List.countP_eq_length_filter _ _
  refine ⟨?_, fun h2 => ?_, fun h3 => ?_⟩
  · rw [signin_authenticated, decide_eq_true_eq, ← hc]
  · rw [signin_authenticated, decide_eq_true_eq, ← hc]
    omega
  · rw [signin_authenticated, decide_eq_false_iff_not, ← hc]
    omega

/-- Witness for C1 at N = 2 (required majority 2): two positive votes
authenticate, one does not. -/
theorem gateway_quorum_rule_witness :
    ((signin_user 0 [("http://127.0.0.1:8001", VerifyOutcome.ok { verified := true }),
        ("http://127.0.0.1:8002", VerifyOutcome.ok { verified := true })]).authenticated = true)
    ∧ ((signin_user 0 [("http://127.0.0.1:8001", VerifyOutcome.ok { verified := true }),
        ("http://127.0.0.1:8002",
          VerifyOutcome.transportError "timeout")]).authenticated = false) :=
  ⟨(gateway_quorum_rule 0 _).2.1 (by decide),
   (gateway_quorum_rule 0 _).2.2 (by decide)⟩

/-- C5: a transport failure on one node call is recorded as a negative
vote carrying the error reason, the loop still produces one vote per
configured node, and when the quorum is not met the gateway returns the
normal response with authenticated = false, the full votes list, and no
token. -/
theorem gateway_partial_failure_handling (now : Nat)
    (calls : List (String × VerifyOutcome))
    (h : ¬ ((calls.map voteOf).filter (fun v => v.verified)).length
        ≥ calls.length / 2 + 1) :
    signin_user now calls =
      { authenticated := false, user := none, token := none,
        votes := calls.map voteOf, profile := none, metrics := none }
    ∧ (calls.map voteOf).length = calls.length
    ∧ (∀ n e, voteOf (n, VerifyOutcome.transportError e) =
        { node := n, verified := false, user := none, distance := none,
          profile := none, error := some e }) := by
  refine ⟨?_, calls.length_map voteOf, fun n e => rfl⟩
  simp only [signin_user]
  rw [if_neg h]

/-- Witness for C5: one node times out, the other votes negative; the
response is the normal non-error body with both votes. -/
theorem gateway_partial_failure_handling_witness :
    signin_user 7 [("http://127.0.0.1:8001", VerifyOutcome.transportError "connection refused"),
        ("http://127.0.0.1:8002", VerifyOutcome.ok { verified := false })] =
      { authenticated := false, user := none, token := none,
        votes := [("http://127.0.0.1:8001",
            VerifyOutcome.transportError "connection refused"),
          ("http://127.0.0.1:8002", VerifyOutcome.ok { verified := false })].map voteOf,
        profile := none, metrics := none } :=
  (gateway_partial_failure_handling 7 _ (by decide)).1

/-- C6: whenever the quorum is met, the subject of the issued token and
the user field of the response both equal the reported identity of the
first positive vote in node order. -/
theorem gateway_first_positive_subject (now : Nat)
    (calls : List (String × VerifyOutcome))
    (h : ((calls.map voteOf).filter (fun v => v.verified)).length
        ≥ calls.length / 2 + 1) :
    ∃ primary, ((calls.map voteOf).filter (fun v => v.verified)).head? = some primary
      ∧ (signin_user now calls).user = primary.user
      ∧ ∃ claims, (signin_user now calls).token = some claims
          ∧ claims.user = primary.user := by
  have hlen : 0 < ((calls.map voteOf).filter (fun v => v.verified)).length := by omega
  obtain ⟨a, t, hp⟩ :=
    List.exists_cons_of_ne_nil (List.ne_nil_of_length_pos hlen)
  refine ⟨a, by rw [hp]; rfl, ?_, ?_⟩
  · simp only [signin_user]
    rw [if_pos h, hp]
    rfl
  · have hmap : (signin_user now calls).token.map Claims.user = some a.user := by
      simp only [signin_user]
      rw [if_pos h, hp]
      rfl
    obtain ⟨c, hc1, hc2⟩ := Option.map_eq_some'.mp hmap
    exact ⟨c, hc1, hc2⟩

/-- Witness for C6: quorum met with two positive votes reporting
different identities; the response subject is the first one. -/
theorem gateway_first_positive_subject_witness :
    ∃ primary,
      (([("http://127.0.0.1:8001",
            VerifyOutcome.ok { verified := true, user := some "alice@example.com" }),
          ("http://127.0.0.1:8002",
            VerifyOutcome.ok { verified := true, user := some "mallory@example.com" })].map
          voteOf).filter (fun v => v.verified)).head? = some primary
      ∧ (signin_user 3 [("http://127.0.0.1:8001",
            VerifyOutcome.ok { verified := true, user := some "alice@example.com" }),
          ("http://127.0.0.1:8002",
            VerifyOutcome.ok { verified := true, user := some "mallory@example.com" })]).user
          = primary.user
      ∧ ∃ claims, (signin_user 3 [("http://127.0.0.1:8001",
            VerifyOutcome.ok { verified := true, user := some "alice@example.com" }),
          ("http://127.0.0.1:8002",
            VerifyOutcome.ok { verified := true, user := some "mallory@example.com" })]).token
            = some claims
          ∧ claims.user = primary.user :=
  gateway_first_positive_subject 3 _ (by decide)

/-- C2: a gateway registration broadcast (one completed per-stage run up
to the broadcast) succeeds with the full per-node result list iff at
least one node reported status stored, and fails with the
BroadcastFailure error carrying the complete result list iff zero nodes
reported stored. -/
theorem register_broadcast_policy {α : Type} (cfg : GatewayConfig)
    (parseClass : String → Option ClassVal) (extract : Bytes → List α)
    (st : GatewayState α) (form : RegisterForm) (sample_payloads : List Bytes)
    (outcomes : List (String × RegOutcome))
    (hmiss : missingFields form = [])
    (hsamp : sample_payloads ≠ [])
    (hcount : cfg.samplesRequired ≤ sample_payloads.length ∨ cfg.samplesRequired = 0)
    (hall : requiredNonempty form = true)
    (cache : Cache α)
    (henc : encode_known_faces extract
        (store_face_samples st.training (gatewaySlug form)
          (truncatedSamples cfg sample_payloads)) = Except.ok cache) :
    ((∃ resp, (register_user cfg parseClass extract st form sample_payloads outcomes).1
          = Except.ok resp ∧ resp.results = outcomes.map regResultOf)
      ↔ ∃ r ∈ outcomes.map regResultOf, r.status = some "stored")
    ∧ ((register_user cfg parseClass extract st form sample_payloads outcomes).1
        = Except.error (GatewayError.broadcastFailure
            "Registration failed on all verifier nodes." (outcomes.map regResultOf))
      ↔ ¬ ∃ r ∈ outcomes.map regResultOf, r.status = some "stored") := by
  have hsampe : sample_payloads.isEmpty = false := by
    cases sample_payloads with
    | nil => exact absurd rfl hsamp
    | cons a t => rfl
  have hguard : (cfg.samplesRequired != 0
      && decide (sample_payloads.length < cfg.samplesRequired)) = false := by
    rcases hcount with h | h
    · have : ¬ sample_payloads.length < cfg.samplesRequired := by omega
      simp [this]
    · simp [h]
  have hstored : ((outcomes.map regResultOf).filter
        (fun r => r.status == some "stored")).isEmpty = false
      ↔ ∃ r ∈ outcomes.map regResultOf, r.status = some "stored" := by
    rw [List.isEmpty_eq_false]
    constructor
    · intro hne
      obtain ⟨r, hr⟩ := List.exists_mem_of_ne_nil _ hne
      exact ⟨r, (List.mem_filter.mp hr).1,
        by simpa using (List.mem_filter.mp hr).2⟩
    · rintro ⟨r, hmem, hs⟩
      intro hnil
      have := List.filter_eq_nil_iff.mp hnil r hmem
      simp [hs] at this
  by_cases hst : ((outcomes.map regResultOf).filter
      (fun r => r.status == some "stored")).isEmpty
  · have hno : ¬ ∃ r ∈ outcomes.map regResultOf, r.status = some "stored" := by
      intro hx
      rw [← hstored] at hx
      simp [hst] at hx
    constructor
    · constructor
      · rintro ⟨resp, hres, -⟩
        exfalso
        simp only [register_user, hmiss, hsampe, hguard, hall, henc, hst] at hres
        simp at hres
      · intro hx
        exact absurd hx hno
    · constructor
      · intro _
        exact hno
      · intro _
        simp only [register_user, hmiss, hsampe, hguard, hall, henc, hst]
        simp
  · have hyes : ∃ r ∈ outcomes.map regResultOf, r.status = some "stored" := by
      rw [← hstored]
      simpa using hst
    constructor
    · constructor
      · intro _
        exact hyes
      · intro _
        cases hee : (register_user cfg parseClass extract st form sample_payloads outcomes).1 with
        | error e =>
          exfalso
          simp only [register_user, hmiss, hsampe, hguard, hall, henc] at hee
          simp [hst] at hee
        | ok resp =>
          refine ⟨resp, rfl, ?_⟩
          simp only [register_user, hmiss, hsampe, hguard, hall, henc] at hee
          simp [hst] at hee
          rw [← hee]
    · constructor
      · intro hres
        exfalso
        simp only [register_user, hmiss, hsampe, hguard, hall, henc] at hres
        simp [hst] at hres
      · intro hx
        exact absurd hyes hx

/-- Witness for C2: one node stores, the other is unreachable; the
broadcast succeeds and lists both per-node results. -/
theorem register_broadcast_policy_witness :
    ((∃ resp, (register_user { samplesRequired := 1 } (fun _ => none)
          (fun _ => [(5 : Nat)]) { training := [], encodingsFile := none }
          { first_name := some "Alice", last_name := some "Smith",
            email := some "alice@example.com", phone := some "555",
            address_line1 := some "1 Main St", city := some "Metropolis",
            postal_code := some "12345", country := some "US" }
          [[1, 2]]
          [("http://127.0.0.1:8001", RegOutcome.ok { status := some "stored" }),
           ("http://127.0.0.1:8002", RegOutcome.transportError "connection refused")]).1
          = Except.ok resp
        ∧ resp.results =
          [("http://127.0.0.1:8001", RegOutcome.ok { status := some "stored" }),
           ("http://127.0.0.1:8002",
             RegOutcome.transportError "connection refused")].map regResultOf)
      ↔ ∃ r ∈ [("http://127.0.0.1:8001", RegOutcome.ok { status := some "stored" }),
           ("http://127.0.0.1:8002",
             RegOutcome.transportError "connection refused")].map regResultOf,
          r.status = some "stored")
    ∧ ((register_user { samplesRequired := 1 } (fun _ => none)
          (fun _ => [(5 : Nat)]) { training := [], encodingsFile := none }
          { first_name := some "Alice", last_name := some "Smith",
            email := some "alice@example.com", phone := some "555",
            address_line1 := some "1 Main St", city := some "Metropolis",
            postal_code := some "12345", country := some "US" }
          [[1, 2]]
          [("http://127.0.0.1:8001", RegOutcome.ok { status := some "stored" }),
           ("http://127.0.0.1:8002", RegOutcome.transportError "connection refused")]).1
        = Except.error (GatewayError.broadcastFailure
            "Registration failed on all verifier nodes."
            ([("http://127.0.0.1:8001", RegOutcome.ok { status := some "stored" }),
              ("http://127.0.0.1:8002",
                RegOutcome.transportError "connection refused")].map regResultOf))
      ↔ ¬ ∃ r ∈ [("http://127.0.0.1:8001", RegOutcome.ok { status := some "stored" }),
            ("http://127.0.0.1:8002",
              RegOutcome.transportError "connection refused")].map regResultOf,
          r.status = some "stored") :=
  register_broadcast_policy { samplesRequired := 1 } (fun _ => none)
    (fun _ => [(5 : Nat)]) { training := [], encodingsFile := none } _ _ _
    (by decide) (by decide) (by decide) (by decide)
    { names := ["alice-smith-alice"], encodings := [5] } rfl

/-- C10: when a gateway registration ends in BroadcastFailure because
every configured node failed, the gateway has already replaced the
stored raw face samples for the identity slug and synchronously rebuilt
the whole encoding cache before the error is raised: the final state
carries the replaced training samples and a cache that is exactly the
rebuild over them, even though the operation reports failure. -/
theorem register_failure_not_atomic {α : Type} (cfg : GatewayConfig)
    (parseClass : String → Option ClassVal) (extract : Bytes → List α)
    (st : GatewayState α) (form : RegisterForm) (sample_payloads : List Bytes)
    (outcomes : List (String × RegOutcome))
    (hmiss : missingFields form = [])
    (hsamp : sample_payloads ≠ [])
    (hcount : cfg.samplesRequired ≤ sample_payloads.length ∨ cfg.samplesRequired = 0)
    (hall : requiredNonempty form = true)
    (cache : Cache α)
    (henc : encode_known_faces extract
        (store_face_samples st.training (gatewaySlug form)
          (truncatedSamples cfg sample_payloads)) = Except.ok cache)
    (hnostore : ∀ r ∈ outcomes.map regResultOf, ¬ r.status = some "stored") :
    (register_user cfg parseClass extract st form sample_payloads outcomes).1
      = Except.error (GatewayError.broadcastFailure
          "Registration failed on all verifier nodes." (outcomes.map regResultOf))
    ∧ (register_user cfg parseClass extract st form sample_payloads outcomes).2.training
      = store_face_samples st.training (gatewaySlug form)
          (truncatedSamples cfg sample_payloads)
    ∧ (register_user cfg parseClass extract st form sample_payloads outcomes).2.encodingsFile
      = some cache
    ∧ encode_known_faces extract
        (register_user cfg parseClass extract st form sample_payloads outcomes).2.training
      = Except.ok cache := by
  have hsampe : sample_payloads.isEmpty = false := by
    cases sample_payloads with
    | nil => exact absurd rfl hsamp
    | cons a t => rfl
  have hguard : (cfg.samplesRequired != 0
      && decide (sample_payloads.length < cfg.samplesRequired)) = false := by
    rcases hcount with h | h
    · have : ¬ sample_payloads.length < cfg.samplesRequired := by omega
      simp [this]
    · simp [h]
  have hst : ((outcomes.map regResultOf).filter
      (fun r => r.status == some "stored")).isEmpty = true := by
    rw [List.isEmpty_iff, List.filter_eq_nil_iff]
    intro r hr
    simpa using hnostore r hr
  refine ⟨?_, ?_, ?_, ?_⟩
  · simp only [register_user, hmiss, hsampe, hguard, hall, henc, hst]
    simp
  · simp only [register_user, hmiss, hsampe, hguard, hall, henc, hst]
    simp
  · simp only [register_user, hmiss, hsampe, hguard, hall, henc, hst]
    simp
  · simp only [register_user, hmiss, hsampe, hguard, hall, henc, hst]
    simpa using henc

/-- Witness for C10: both nodes unreachable; the registration fails with
BroadcastFailure yet the returned state holds the new samples and the
rebuilt cache. -/
theorem register_failure_not_atomic_witness :
    ((register_user { samplesRequired := 1 } (fun _ => none)
        (fun _ => [(5 : Nat)]) { training := [], encodingsFile := none }
        { first_name := some "Alice", last_name := some "Smith",
          email := some "alice@example.com", phone := some "555",
          address_line1 := some "1 Main St", city := some "Metropolis",
          postal_code := some "12345", country := some "US" }
        [[1, 2]]
        [("http://127.0.0.1:8001", RegOutcome.transportError "timeout"),
         ("http://127.0.0.1:8002", RegOutcome.transportError "timeout")]).1
      = Except.error (GatewayError.broadcastFailure
          "Registration failed on all verifier nodes."
          ([("http://127.0.0.1:8001", RegOutcome.transportError "timeout"),
            ("http://127.0.0.1:8002",
              RegOutcome.transportError "timeout")].map regResultOf)))
    ∧ ((register_user { samplesRequired := 1 } (fun _ => none)
        (fun _ => [(5 : Nat)]) { training := [], encodingsFile := none }
        { first_name := some "Alice", last_name := some "Smith",
          email := some "alice@example.com", phone := some "555",
          address_line1 := some "1 Main St", city := some "Metropolis",
          postal_code := some "12345", country := some "US" }
        [[1, 2]]
        [("http://127.0.0.1:8001", RegOutcome.transportError "timeout"),
         ("http://127.0.0.1:8002", RegOutcome.transportError "timeout")]).2.training
      = store_face_samples [] "alice-smith-alice" [[1, 2]])
    ∧ ((register_user { samplesRequired := 1 } (fun _ => none)
        (fun _ => [(5 : Nat)]) { training := [], encodingsFile := none }
        { first_name := some "Alice", last_name := some "Smith",
          email := some "alice@example.com", phone := some "555",
          address_line1 := some "1 Main St", city := some "Metropolis",
          postal_code := some "12345", country := some "US" }
        [[1, 2]]
        [("http://127.0.0.1:8001", RegOutcome.transportError "timeout"),
         ("http://127.0.0.1:8002", RegOutcome.transportError "timeout")]).2.encodingsFile
      = some { names := ["alice-smith-alice"], encodings := [5] })
    ∧ (encode_known_faces (fun _ => [(5 : Nat)])
        (register_user { samplesRequired := 1 } (fun _ => none)
          (fun _ => [(5 : Nat)]) { training := [], encodingsFile := none }
          { first_name := some "Alice", last_name := some "Smith",
            email := some "alice@example.com", phone := some "555",
            address_line1 := some "1 Main St", city := some "Metropolis",
            postal_code := some "12345", country := some "US" }
          [[1, 2]]
          [("http://127.0.0.1:8001", RegOutcome.transportError "timeout"),
           ("http://127.0.0.1:8002", RegOutcome.transportError "timeout")]).2.training
      = Except.ok { names := ["alice-smith-alice"], encodings := [5] }) :=
  register_failure_not_atomic { samplesRequired := 1 } (fun _ => none)
    (fun _ => [(5 : Nat)]) { training := [], encodingsFile := none } _ _ _
    (by decide) (by decide) (by decide) (by decide)
    { names := ["alice-smith-alice"], encodings := [5] } rfl (by decide)

/-- C7 counterexample: registering on the single-node path with a city
that is empty after trimming fails with a validation error whose detail
is the fixed message "Missing required profile attributes.", which does
not name city — against the claim that both paths name the missing
field. -/
theorem node_validation_does_not_name_field :
    (node1_register (fun _ => "aa11") (fun _ => none) []
        { first_name := "Alice", last_name := "Smith",
          email := "alice@example.com", phone := "555",
          address_line1 := "1 Main St", city := "   ",
          postal_code := "12345", country := "US" } [1]).1
      = Except.error (400, "Missing required profile attributes.")
    ∧ hasSubstr "Missing required profile attributes." "city" = false := by
  constructor
  · rfl
  · decide

/-- C7 amended: a required profile field empty after trimming fails
registration with a ValidationError on both paths; the gateway error
names the missing field (city appears in its missing list), while the
single-node error carries only the generic message. -/
theorem registration_missing_city {α : Type} (cfg : GatewayConfig)
    (parseClass : String → Option ClassVal) (extract : Bytes → List α)
    (st : GatewayState α) (form : RegisterForm) (sample_payloads : List Bytes)
    (outcomes : List (String × RegOutcome))
    (hcity : requiredValue form.city = "")
    (sha256hex : Bytes → String) (parseClass2 : String → Option ClassVal)
    (users : List (String × Node1Record)) (nform : NodeRegisterForm)
    (image_bytes : Bytes)
    (hncity : pyStrip nform.city = "")
    (himg : image_bytes ≠ []) :
    "city" ∈ missingFields form
    ∧ (register_user cfg parseClass extract st form sample_payloads outcomes).1
        = Except.error (GatewayError.validationError
            "Missing required profile attributes." (some (missingFields form)))
    ∧ (node1_register sha256hex parseClass2 users nform image_bytes).1
        = Except.error (400, "Missing required profile attributes.") := by
  have hmem : "city" ∈ missingFields form := by
    unfold missingFields
    refine List.mem_map.mpr ⟨("city", form.city), ?_, rfl⟩
    refine List.mem_filter.mpr ⟨?_, ?_⟩
    · simp [requiredPairs]
    · simp [hcity]
  have hne : missingFields form ≠ [] := List.ne_nil_of_mem hmem
  refine ⟨hmem, ?_, ?_⟩
  · simp only [register_user]
    rw [if_pos hne]
  · have hval : nodeRequiredNonempty nform = false := by
      simp [nodeRequiredNonempty, hncity]
    simp only [node1_register, hval]
    rw [if_neg himg]
    simp

/-- Witness for the amended C7 at a concrete whitespace city on both
paths. -/
theorem registration_missing_city_witness :
    "city" ∈ missingFields
      ({ first_name := some "Alice", last_name := some "Smith",
         email := some "alice@example.com", phone := some "555",
         address_line1 := some "1 Main St", city := some "   ",
         postal_code := some "12345", country := some "US" } : RegisterForm)
    ∧ (register_user { samplesRequired := 1 } (fun _ => none)
        (fun _ => [(5 : Nat)]) { training := [], encodingsFile := none }
        { first_name := some "Alice", last_name := some "Smith",
          email := some "alice@example.com", phone := some "555",
          address_line1 := some "1 Main St", city := some "   ",
          postal_code := some "12345", country := some "US" }
        [[1, 2]] []).1
        = Except.error (GatewayError.validationError
            "Missing required profile attributes."
            (some (missingFields
              { first_name := some "Alice", last_name := some "Smith",
                email := some "alice@example.com", phone := some "555",
                address_line1 := some "1 Main St", city := some "   ",
                postal_code := some "12345", country := some "US" })))
    ∧ (node1_register (fun _ => "aa11") (fun _ => none) []
        { first_name := "Alice", last_name := "Smith",
          email := "alice2@example.com", phone := "555",
          address_line1 := "1 Main St", city := " ",
          postal_code := "12345", country := "US" } [2]).1
        = Except.error (400, "Missing required profile attributes.") :=
  registration_missing_city { samplesRequired := 1 } (fun _ => none)
    (fun _ => [(5 : Nat)]) { training := [], encodingsFile := none } _ [[1, 2]] []
    (by decide) (fun _ => "aa11") (fun _ => none) [] _ [2] (by decide) (by decide)

/-- C4: the exact-signature node verifies a probe — with distance fixed
at 0.0 and the stored profile — iff the content hash of the probe bytes
equals the stored reference signature of some enrolled identity, and a
probe whose bytes differ from every enrolled sample never matches
(under collision-freedom of the hash on the inputs involved; the hash
itself is the external hashlib.sha256 hexdigest). -/
theorem node1_exact_signature_rule (sha256hex : Bytes → String)
    (users : List (String × Node1Record)) (image_bytes : Bytes)
    (himg : image_bytes ≠ [])
    (hsha : sha256hex image_bytes ≠ "") :
    ((∃ v, node1_verify sha256hex users image_bytes = NodeVerifyResult.ok v
        ∧ v.verified = true)
      ↔ ∃ u ∈ users, node1_effective_sig u.2 = some (sha256hex image_bytes))
    ∧ (∀ v, node1_verify sha256hex users image_bytes = NodeVerifyResult.ok v →
        v.verified = true →
        v.distance = some 0
        ∧ ∃ u ∈ users, v.user = some u.1 ∧ v.profile = some u.2.profile
            ∧ node1_effective_sig u.2 = some (sha256hex image_bytes))
    ∧ (∀ enrolled : List Bytes,
        (∀ u ∈ users, ∃ b ∈ enrolled, u.2.signature = some (sha256hex b)
          ∧ u.2.embedding = none) →
        (∀ b ∈ enrolled, image_bytes ≠ b) →
        (∀ b ∈ enrolled, image_bytes ≠ b → sha256hex image_bytes ≠ sha256hex b) →
        ∀ v, node1_verify sha256hex users image_bytes = NodeVerifyResult.ok v →
          v.verified = false) := by
  have hmatch : ∀ r : Node1Record,
      node1_sig_matches (sha256hex image_bytes) r = true
        ↔ node1_effective_sig r = some (sha256hex image_bytes) := by
    intro r
    unfold node1_sig_matches
    cases h : node1_effective_sig r with
    | none => simp
    | some s =>
      simp only [Bool.and_eq_true, bne_iff_ne, ne_eq, beq_iff_eq, Option.some.injEq]
      constructor
      · rintro ⟨-, h2⟩
        exact h2
      · intro h2
        exact ⟨by simp [h2, hsha], h2⟩
  by_cases hu : users.isEmpty
  · have h0 : users = [] := List.isEmpty_iff.mp hu
    subst h0
    have hv : node1_verify sha256hex [] image_bytes
        = NodeVerifyResult.ok { verified := false, reason := some "no_enrollments" } := by
      simp only [node1_verify]
      rw [if_neg himg]
      rfl
    refine ⟨?_, ?_, ?_⟩
    · constructor
      · rintro ⟨v, hveq, hver⟩
        rw [hv] at hveq
        injection hveq with h
        subst h
        simp at hver
      · rintro ⟨u, hmem, -⟩
        cases hmem
    · intro v hveq hver
      rw [hv] at hveq
      injection hveq with h
      subst h
      simp at hver
    · intro enrolled _ _ _ v hveq
      rw [hv] at hveq
      injection hveq with h
      subst h
      rfl
  · have hv : node1_verify sha256hex users image_bytes
        = match users.find? (fun u => node1_sig_matches (sha256hex image_bytes) u.2) with
          | some u => NodeVerifyResult.ok
              { verified := true, user := some u.1,
                distance := some 0, profile := some u.2.profile }
          | none => NodeVerifyResult.ok { verified := false, reason := some "no_match" } := by
      simp only [node1_verify]
      rw [if_neg himg]
      simp [hu]
    cases hf : users.find? (fun u => node1_sig_matches (sha256hex image_bytes) u.2) with
    | some u =>
      rw [hf] at hv
      have hpu : node1_sig_matches (sha256hex image_bytes) u.2 = true := by
        simpa using List.find?_some hf
      have hmemu : u ∈ users := List.mem_of_find?_eq_some hf
      refine ⟨?_, ?_, ?_⟩
      · constructor
        · intro _
          exact ⟨u, hmemu, (hmatch u.2).mp hpu⟩
        · intro _
          exact ⟨_, hv, rfl⟩
      · intro v hveq hver
        rw [hv] at hveq
        injection hveq with h
        subst h
        exact ⟨rfl, u, hmemu, rfl, rfl, (hmatch u.2).mp hpu⟩
      · intro enrolled hsig hdiff hcoll v hveq
        exfalso
        obtain ⟨b, hbmem, hbsig, hbemb⟩ := hsig u hmemu
        have heff : node1_effective_sig u.2 = some (sha256hex image_bytes) :=
          (hmatch u.2).mp hpu
        unfold node1_effective_sig at heff
        rw [hbsig, hbemb] at heff
        by_cases hz : sha256hex b = ""
        · simp [hz] at heff
        · simp [hz] at heff
          exact hcoll b hbmem (hdiff b hbmem) heff.symm
    | none =>
      rw [hf] at hv
      have hnone : ∀ u ∈ users, ¬ node1_sig_matches (sha256hex image_bytes) u.2 = true :=
        fun u hm => by simpa using List.find?_eq_none.mp hf u hm
      refine ⟨?_, ?_, ?_⟩
      · constructor
        · rintro ⟨v, hveq, hver⟩
          rw [hv] at hveq
          injection hveq with h
          subst h
          simp at hver
        · rintro ⟨u, hmem, heff⟩
          exact absurd ((hmatch u.2).mpr heff) (hnone u hmem)
      · intro v hveq hver
        rw [hv] at hveq
        injection hveq with h
        subst h
        simp at hver
      · intro _ _ _ _ v hveq
        rw [hv] at hveq
        injection hveq with h
        subst h
        rfl

/-- Witness for C4: a store with one enrolled signature; the probe whose
hash equals it verifies. -/
theorem node1_exact_signature_rule_witness :
    ((∃ v, node1_verify (fun b => if b = [9] then "aa11" else "ff00")
        [("bob@example.com",
          { name := "Bob", signature := some "aa11",
            profile := { first_name := "Bob", last_name := "B", phone := "1",
                         address_line1 := "2", city := "c", postal_code := "9",
                         country := "US" } })] [9] = NodeVerifyResult.ok v
        ∧ v.verified = true)
      ↔ ∃ u ∈ [("bob@example.com",
          ({ name := "Bob", signature := some "aa11",
             profile := { first_name := "Bob", last_name := "B", phone := "1",
                          address_line1 := "2", city := "c", postal_code := "9",
                          country := "US" } } : Node1Record))],
          node1_effective_sig u.2
            = some ((fun b => if b = [9] then "aa11" else "ff00") [9]))
    ∧ (∀ v, node1_verify (fun b => if b = [9] then "aa11" else "ff00")
        [("bob@example.com",
          { name := "Bob", signature := some "aa11",
            profile := { first_name := "Bob", last_name := "B", phone := "1",
                         address_line1 := "2", city := "c", postal_code := "9",
                         country := "US" } })] [9] = NodeVerifyResult.ok v →
        v.verified = true →
        v.distance = some 0
        ∧ ∃ u ∈ [("bob@example.com",
            ({ name := "Bob", signature := some "aa11",
               profile := { first_name := "Bob", last_name := "B", phone := "1",
                            address_line1 := "2", city := "c", postal_code := "9",
                            country := "US" } } : Node1Record))],
            v.user = some u.1 ∧ v.profile = some u.2.profile
              ∧ node1_effective_sig u.2
                  = some ((fun b => if b = [9] then "aa11" else "ff00") [9]))
    ∧ (∀ enrolled : List Bytes,
        (∀ u ∈ [("bob@example.com",
            ({ name := "Bob", signature := some "aa11",
               profile := { first_name := "Bob", last_name := "B", phone := "1",
                            address_line1 := "2", city := "c", postal_code := "9",
                            country := "US" } } : Node1Record))],
          ∃ b ∈ enrolled,
            u.2.signature = some ((fun b => if b = [9] then "aa11" else "ff00") b)
            ∧ u.2.embedding = none) →
        (∀ b ∈ enrolled, ([9] : Bytes) ≠ b) →
        (∀ b ∈ enrolled, ([9] : Bytes) ≠ b →
          (fun b => if b = [9] then "aa11" else "ff00") ([9] : Bytes)
            ≠ (fun b => if b = [9] then "aa11" else "ff00") b) →
        ∀ v, node1_verify (fun b => if b = [9] then "aa11" else "ff00")
          [("bob@example.com",
            { name := "Bob", signature := some "aa11",
              profile := { first_name := "Bob", last_name := "B", phone := "1",
                           address_line1 := "2", city := "c", postal_code := "9",
                           country := "US" } })] [9] = NodeVerifyResult.ok v →
          v.verified = false) :=
  node1_exact_signature_rule (fun b => if b = [9] then "aa11" else "ff00") _ _
    (by decide) (by decide)

/-- C8 counterexample: with a non-empty store and the encodings file
present, a probe in which the extractor finds zero faces produces the
same generic verified = false, reason = no_match body as a probe whose
detected face matches nothing — there is no distinct NoFaceDetected
outcome, against the claim. -/
theorem no_face_detected_counterexample :
    node2_verify (fun _ _ => (1 : ℚ)) (fun b => if b = [2] then [7] else [])
      [("bob@example.com",
        { name := "Bob", face_slug := some "bob",
          profile := { first_name := "Bob", last_name := "B", phone := "1",
                       address_line1 := "2", city := "c", postal_code := "9",
                       country := "US" } })]
      (some { names := ["bob"], encodings := [(3 : Nat)] }) [1]
      = NodeVerifyResult.ok { verified := false, reason := some "no_match" }
    ∧ node2_verify (fun _ _ => (1 : ℚ)) (fun b => if b = [2] then [7] else [])
      [("bob@example.com",
        { name := "Bob", face_slug := some "bob",
          profile := { first_name := "Bob", last_name := "B", phone := "1",
                       address_line1 := "2", city := "c", postal_code := "9",
                       country := "US" } })]
      (some { names := ["bob"], encodings := [(3 : Nat)] }) [2]
      = NodeVerifyResult.ok { verified := false, reason := some "no_match" } := by
  constructor
  · decide
  · decide

/-- C8 amended: on the embedding node a probe with zero usable faces
yields the structured verified = false result with the generic reason
no_match (not a distinct NoFaceDetected code), and an empty enrollment
store yields reason no_enrollments on both node implementations; all of
these are normal response bodies, not errors. -/
theorem negative_outcome_reasons {α : Type} (dist : α → α → ℚ)
    (extractProbe : Bytes → List α) (users : List (String × Node2Record))
    (cache : Cache α) (image_bytes : Bytes)
    (himg : image_bytes ≠ []) :
    (users ≠ [] → extractProbe image_bytes = [] →
      node2_verify dist extractProbe users (some cache) image_bytes
        = NodeVerifyResult.ok { verified := false, reason := some "no_match" })
    ∧ (users = [] →
      node2_verify dist extractProbe users (some cache) image_bytes
        = NodeVerifyResult.ok { verified := false, reason := some "no_enrollments" })
    ∧ (∀ (sha256hex : Bytes → String) (users1 : List (String × Node1Record)),
        users1 = [] →
        node1_verify sha256hex users1 image_bytes
          = NodeVerifyResult.ok { verified := false, reason := some "no_enrollments" }) := by
  refine ⟨?_, ?_, ?_⟩
  · intro hne hext
    have hue : users.isEmpty = false := by
      cases users with
      | nil => exact absurd rfl hne
      | cons a t => rfl
    simp only [node2_verify, match_face, hue, hext]
    rw [if_neg himg]
    simp [himg]
  · intro h0
    subst h0
    simp only [node2_verify]
    rw [if_neg himg]
    rfl
  · intro sha users1 h0
    subst h0
    simp only [node1_verify]
    rw [if_neg himg]
    rfl

/-- Witness for the amended C8 at concrete inputs. -/
theorem negative_outcome_reasons_witness :
    (([("bob@example.com",
        ({ name := "Bob", face_slug := some "bob",
           profile := { first_name := "Bob", last_name := "B", phone := "1",
                        address_line1 := "2", city := "c", postal_code := "9",
                        country := "US" } } : Node2Record))] :
          List (String × Node2Record)) ≠ [] →
      (fun _ => ([] : List Nat)) ([4] : Bytes) = [] →
      node2_verify (fun _ _ => (1 : ℚ)) (fun _ => ([] : List Nat))
        [("bob@example.com",
          { name := "Bob", face_slug := some "bob",
            profile := { first_name := "Bob", last_name := "B", phone := "1",
                         address_line1 := "2", city := "c", postal_code := "9",
                         country := "US" } })]
        (some { names := ["bob"], encodings := [(3 : Nat)] }) [4]
        = NodeVerifyResult.ok { verified := false, reason := some "no_match" })
    ∧ (([("bob@example.com",
        ({ name := "Bob", face_slug := some "bob",
           profile := { first_name := "Bob", last_name := "B", phone := "1",
                        address_line1 := "2", city := "c", postal_code := "9",
                        country := "US" } } : Node2Record))] :
          List (String × Node2Record)) = [] →
      node2_verify (fun _ _ => (1 : ℚ)) (fun _ => ([] : List Nat))
        [("bob@example.com",
          { name := "Bob", face_slug := some "bob",
            profile := { first_name := "Bob", last_name := "B", phone := "1",
                         address_line1 := "2", city := "c", postal_code := "9",
                         country := "US" } })]
        (some { names := ["bob"], encodings := [(3 : Nat)] }) [4]
        = NodeVerifyResult.ok { verified := false, reason := some "no_enrollments" })
    ∧ (∀ (sha256hex : Bytes → String) (users1 : List (String × Node1Record)),
        users1 = [] →
        node1_verify sha256hex users1 [4]
          = NodeVerifyResult.ok { verified := false, reason := some "no_enrollments" }) :=
  negative_outcome_reasons (fun _ _ => (1 : ℚ)) (fun _ => ([] : List Nat)) _ _ [4]
    (by decide)

/-- C9: when the store file content is corrupt or undecodable, loading
the enrollment store yields the empty map, and every node operation
proceeds as if no identities were enrolled: verify returns the
no_enrollments body on both nodes, classifier lookup returns an empty
match list, and register proceeds and stores the new identity. -/
theorem corrupt_store_degrades_to_empty {α : Type}
    (decoded1 : Option (List (String × Node1Record)))
    (decoded2 : Option (List (String × Node2Record)))
    (h1 : decoded1 = none) (h2 : decoded2 = none)
    (sha256hex : Bytes → String) (parseClass : String → Option ClassVal)
    (dist : α → α → ℚ) (extractProbe : Bytes → List α)
    (encodingsFile : Option (Cache α)) (image_bytes : Bytes)
    (himg : image_bytes ≠ [])
    (lbl : String) (hlbl : lbl ≠ "")
    (form : NodeRegisterForm) (hform : nodeRequiredNonempty form = true) :
    load_users decoded1 = []
    ∧ load_users decoded2 = []
    ∧ node1_verify sha256hex (load_users decoded1) image_bytes
        = NodeVerifyResult.ok { verified := false, reason := some "no_enrollments" }
    ∧ node2_verify dist extractProbe (load_users decoded2) encodingsFile image_bytes
        = NodeVerifyResult.ok { verified := false, reason := some "no_enrollments" }
    ∧ classifier_lookup (fun r : Node1Record => r.name) (fun r => r.profile)
        (load_users decoded1) (some lbl)
        = Except.ok { label := pyStrip lbl, count := 0, matchEntries := [] }
    ∧ (node1_register sha256hex parseClass (load_users decoded1) form image_bytes).1
        = Except.ok { status := "stored", user := form.email,
                      profile := nodeProfile parseClass form }
    ∧ (node1_register sha256hex parseClass (load_users decoded1) form image_bytes).2
        = [(form.email,
            { name := nodeFullName form, signature := some (sha256hex image_bytes),
              profile := nodeProfile parseClass form })] := by
  subst h1
  subst h2
  refine ⟨rfl, rfl, ?_, ?_, ?_, ?_, ?_⟩
  · simp only [node1_verify]
    rw [if_neg himg]
    rfl
  · simp only [node2_verify]
    rw [if_neg himg]
    rfl
  · simp only [classifier_lookup, load_users]
    rw [if_neg hlbl]
    rfl
  · simp only [node1_register, hform]
    rw [if_neg himg]
    rfl
  · simp only [node1_register, hform]
    rw [if_neg himg]
    rfl

/-- Witness for C9 at a concrete corrupt decode outcome. -/
theorem corrupt_store_degrades_to_empty_witness :
    load_users (none : Option (List (String × Node1Record))) = []
    ∧ load_users (none : Option (List (String × Node2Record))) = []
    ∧ node1_verify (fun _ => "aa11") (load_users none) [4]
        = NodeVerifyResult.ok { verified := false, reason := some "no_enrollments" }
    ∧ node2_verify (fun _ _ => (1 : ℚ)) (fun _ => ([] : List Nat)) (load_users none)
        (some { names := ["bob"], encodings := [(3 : Nat)] }) [4]
        = NodeVerifyResult.ok { verified := false, reason := some "no_enrollments" }
    ∧ classifier_lookup (fun r : Node1Record => r.name) (fun r => r.profile)
        (load_users none) (some "vip")
        = Except.ok { label := pyStrip "vip", count := 0, matchEntries := [] }
    ∧ (node1_register (fun _ => "aa11") (fun _ => none) (load_users none)
        { first_name := "Alice", last_name := "Smith",
          email := "alice@example.com", phone := "555",
          address_line1 := "1 Main St", city := "Metropolis",
          postal_code := "12345", country := "US" } [4]).1
        = Except.ok { status := "stored", user := "alice@example.com",
                      profile := nodeProfile (fun _ => none)
                        { first_name := "Alice", last_name := "Smith",
                          email := "alice@example.com", phone := "555",
                          address_line1 := "1 Main St", city := "Metropolis",
                          postal_code := "12345", country := "US" } }
    ∧ (node1_register (fun _ => "aa11") (fun _ => none) (load_users none)
        { first_name := "Alice", last_name := "Smith",
          email := "alice@example.com", phone := "555",
          address_line1 := "1 Main St", city := "Metropolis",
          postal_code := "12345", country := "US" } [4]).2
        = [("alice@example.com",
            { name := nodeFullName
                { first_name := "Alice", last_name := "Smith",
                  email := "alice@example.com", phone := "555",
                  address_line1 := "1 Main St", city := "Metropolis",
                  postal_code := "12345", country := "US" },
              signature := some "aa11",
              profile := nodeProfile (fun _ => none)
                { first_name := "Alice", last_name := "Smith",
                  email := "alice@example.com", phone := "555",
                  address_line1 := "1 Main St", city := "Metropolis",
                  postal_code := "12345", country := "US" } })] :=
  corrupt_store_degrades_to_empty none none rfl rfl (fun _ => "aa11") (fun _ => none)
    (fun _ _ => (1 : ℚ)) (fun _ => ([] : List Nat))
    (some { names := ["bob"], encodings := [(3 : Nat)] }) [4] (by decide)
    "vip" (by decide) _ (by decide)

/-! ### Helper lemmas for the matcher equivalence -/

theorem minD_cons (d : ℚ) (rest : List ℚ) (h : rest ≠ []) :
    minD (d :: rest) = min d (minD rest) := by
  cases rest with
  | nil => exact absurd rfl h
  | cons e t => rfl

theorem minD_mem : ∀ (l : List ℚ), l ≠ [] → minD l ∈ l := by
  intro l
  induction l with
  | nil => intro h; exact absurd rfl h
  | cons d rest ih =>
    intro _
    cases hr : rest with
    | nil => subst hr; simp [minD]
    | cons e t =>
      subst hr
      rw [minD_cons d _ (by simp)]
      rcases le_total d (minD (e :: t)) with hle | hle
      · simp [min_eq_left hle]
      · rw [min_eq_right hle]
        exact List.mem_cons_of_mem _ (ih (by simp))

theorem minD_le : ∀ (l : List ℚ) (x : ℚ), x ∈ l → minD l ≤ x := by
  intro l
  induction l with
  | nil => intro x hx; cases hx
  | cons d rest ih =>
    intro x hx
    cases hr : rest with
    | nil =>
      subst hr
      simp only [List.mem_singleton] at hx
      simp [minD, hx]
    | cons e t =>
      subst hr
      rw [minD_cons d _ (by simp)]
      rcases List.mem_cons.mp hx with h | h
      · subst h
        exact min_le_left _ _
      · exact le_trans (min_le_right _ _) (ih x h)

/-- The minimum over all of the winner entries agrees with the minimum
over its voting (sub-tolerance) entries whenever at least one entry
votes: every non-voting entry lies strictly above tolerance. -/
theorem minD_filter_le (tol : ℚ) (A : List ℚ)
    (hV : A.filter (fun d => decide (d ≤ tol)) ≠ []) :
    minD A = minD (A.filter (fun d => decide (d ≤ tol))) := by
  have hA : A ≠ [] := by
    intro h
    subst h
    simp at hV
  have h1 : minD (A.filter (fun d => decide (d ≤ tol))) ∈ A :=
    (List.mem_filter.mp (minD_mem _ hV)).1
  have h2 : minD A ≤ minD (A.filter (fun d => decide (d ≤ tol))) := minD_le A _ h1
  have h3 : minD (A.filter (fun d => decide (d ≤ tol))) ≤ tol := by
    have := (List.mem_filter.mp (minD_mem _ hV)).2
    simpa using this
  have h5 : minD A ∈ A.filter (fun d => decide (d ≤ tol)) :=
    List.mem_filter.mpr ⟨minD_mem A hA, by simpa using le_trans h2 h3⟩
  exact le_antisymm h2 (minD_le _ _ h5)

theorem maxD_cons (c : Nat) (rest : List Nat) : maxD (c :: rest) = max c (maxD rest) := rfl

theorem firstArgmax_cons (x : String × Nat) (xs : List (String × Nat)) :
    firstArgmax (x :: xs)
      = match firstArgmax xs with
        | none => some x
        | some y => if y.2 > x.2 then some y else some x := rfl

/-- Python max over pairs keyed by the second component returns the
first pair whose key attains the maximum. -/
theorem firstArgmax_spec (f : String → Nat) :
    ∀ (l : List String), l ≠ [] →
    ∃ w, l.find? (fun n => f n = maxD (l.map f)) = some w
      ∧ firstArgmax (l.map (fun n => (n, f n))) = some (w, f w) := by
  intro l
  induction l with
  | nil => intro h; exact absurd rfl h
  | cons n rest ih =>
    intro _
    cases hr : rest with
    | nil =>
      subst hr
      refine ⟨n, ?_, rfl⟩
      simp [List.find?, maxD]
    | cons e t =>
      subst hr
      obtain ⟨w, hfind, harg⟩ := ih (by simp)
      have hwmax : f w = maxD ((e :: t).map f) := by
        simpa using List.find?_some hfind
      have hsplit : maxD ((n :: e :: t).map f) = max (f n) (maxD ((e :: t).map f)) := by
        rw [List.map_cons, maxD_cons]
      by_cases hgt : f n < f w
      · have hmaxtot : maxD ((n :: e :: t).map f) = maxD ((e :: t).map f) := by
          rw [hsplit, ← hwmax]
          omega
        refine ⟨w, ?_, ?_⟩
        · have hcond : (decide (f n = maxD ((n :: e :: t).map f))) = false := by
            rw [hmaxtot, ← hwmax]
            simp only [decide_eq_false_iff_not]
            omega
          rw [List.find?_cons, hcond]
          simp only [hmaxtot]
          exact hfind
        · rw [List.map_cons, firstArgmax_cons, harg]
          simp [hgt]
      · have hmaxtot : maxD ((n :: e :: t).map f) = f n := by
          rw [hsplit, ← hwmax]
          omega
        refine ⟨n, ?_, ?_⟩
        · have hcond : (decide (f n = maxD ((n :: e :: t).map f))) = true := by
            rw [hmaxtot]
            simp
          rw [List.find?_cons, hcond]
        · rw [List.map_cons, firstArgmax_cons, harg]
          have hng : ¬ f w > f n := hgt
          simp [hng]

theorem dedupFirstAux_subset : ∀ (l seen : List String) (x : String),
    x ∈ dedupFirstAux seen l → x ∈ l := by
  intro l
  induction l with
  | nil => intro seen x hx; simp [dedupFirstAux] at hx
  | cons n rest ih =>
    intro seen x hx
    simp only [dedupFirstAux] at hx
    split at hx
    · exact List.mem_cons_of_mem _ (ih seen x hx)
    · rcases List.mem_cons.mp hx with h | h
      · simp [h]
      · exact List.mem_cons_of_mem _ (ih _ x h)

theorem dedupFirst_subset (l : List String) (x : String) :
    x ∈ dedupFirst l → x ∈ l := dedupFirstAux_subset l [] x

theorem dedupFirst_cons_ne_nil (n : String) (rest : List String) :
    dedupFirst (n :: rest) ≠ [] := by
  simp [dedupFirst, dedupFirstAux]

/-- The vote generator collects exactly the first components of the
sub-tolerance entries of the (tag, distance) table. -/
theorem votedNames_spec (tol : ℚ) :
    ∀ (names : List String) (ds : List ℚ), names.length = ds.length →
    votedNames (ds.map (fun d => decide (d ≤ tol))) names
      = ((names.zip ds).filter (fun p => decide (p.2 ≤ tol))).map Prod.fst := by
  intro names
  induction names with
  | nil =>
    intro ds h
    cases ds with
    | nil => rfl
    | cons d dt => simp at h
  | cons n nt ih =>
    intro ds h
    cases ds with
    | nil => simp at h
    | cons d dt =>
      have ht : nt.length = dt.length := by simpa using h
      simp only [List.map_cons, votedNames, List.zip_cons_cons, List.filterMap_cons,
        List.filter_cons]
      by_cases hd : d ≤ tol
      · simpa [hd] using ih dt ht
      · simpa [hd] using ih dt ht

/-- The winner distance list of the source (over zip(distances, names))
equals the same selection over zip(names, distances). -/
theorem winner_distances_spec (w : String) :
    ∀ (names : List String) (ds : List ℚ), names.length = ds.length →
    ((ds.zip names).filter (fun p => decide (p.2 = w))).map Prod.fst
      = ((names.zip ds).filter (fun p => decide (p.1 = w))).map Prod.snd := by
  intro names
  induction names with
  | nil => intro ds h; cases ds <;> rfl
  | cons n nt ih =>
    intro ds h
    cases ds with
    | nil => simp at h
    | cons d dt =>
      have ht : nt.length = dt.length := by simpa using h
      simp only [List.zip_cons_cons, List.filter_cons]
      by_cases hn : n = w
      · simpa [hn] using ih dt ht
      · simpa [hn] using ih dt ht

/-- Restricting to the winner commutes with restricting to the voting
entries. -/
theorem filter_snd_comm (w : String) (tol : ℚ) (l : List (String × ℚ)) :
    ((l.filter (fun p => decide (p.2 ≤ tol))).filter
        (fun p => decide (p.1 = w))).map Prod.snd
      = ((l.filter (fun p => decide (p.1 = w))).map Prod.snd).filter
          (fun d => decide (d ≤ tol)) := by
  rw [List.filter_map, List.filter_filter, List.filter_filter]
  congr 1
  apply List.filter_congr
  intro a _
  simp [Bool.and_comm]

/-- The source matcher agrees with the spec-side description (votes from
sub-tolerance entries, plurality winner with first-voting-entry
tie-break, winner distance as minimum over its voting entries, pure
nearest-neighbor fallback), for any tolerance, on any well-formed
non-empty cache. -/
theorem recognize_face_eq_spec {α : Type} (dist : α → α → ℚ) (loaded : Cache α)
    (probe : α) (tol : ℚ)
    (hlen : loaded.names.length = loaded.encodings.length)
    (hne : loaded.encodings ≠ []) :
    recognize_face dist loaded probe tol = recognizeSpec dist loaded probe tol := by
  obtain ⟨names, encs⟩ := loaded
  simp only at hlen hne
  have hdlen : names.length = (face_distance dist encs probe).length := by
    simpa [face_distance] using hlen
  have hdne : ¬ (face_distance dist encs probe = []) := by
    simp only [face_distance, List.map_eq_nil_iff]
    exact hne
  have hvn : votedNames (compare_faces dist encs probe tol) names
      = ((names.zip (face_distance dist encs probe)).filter
          (fun p => decide (p.2 ≤ tol))).map Prod.fst := by
    simpa only [compare_faces] using
      votedNames_spec tol names (face_distance dist encs probe) hdlen
  simp only [recognize_face, recognizeSpec]
  rw [if_neg hdne, hvn]
  cases hv : (names.zip (face_distance dist encs probe)).filter
      (fun p => decide (p.2 ≤ tol)) with
  | nil =>
    rw [if_neg hdne]
    rfl
  | cons v vs =>
    have hvne : (v :: vs : List (String × ℚ)) ≠ [] := by simp
    rw [if_pos hvne]
    have hlne : dedupFirst ((v :: vs).map Prod.fst) ≠ [] := by
      simp only [List.map_cons]
      exact dedupFirst_cons_ne_nil _ _
    obtain ⟨w, hfind, harg⟩ :=
      firstArgmax_spec (fun n => ((v :: vs).map Prod.fst).count n)
        (dedupFirst ((v :: vs).map Prod.fst)) hlne
    simp only [countVotes]
    rw [harg, hfind]
    dsimp only [Option.getD_some]
    have hwv : w ∈ (v :: vs).map Prod.fst :=
      dedupFirst_subset _ _ (List.mem_of_find?_eq_some hfind)
    obtain ⟨p, hpmem, hpw⟩ := List.mem_map.mp hwv
    have hBmem : p ∈ (v :: vs).filter (fun q => decide (q.1 = w)) :=
      List.mem_filter.mpr ⟨hpmem, by simp [hpw]⟩
    have hWDne : ((v :: vs).filter (fun q => decide (q.1 = w))).map Prod.snd ≠ [] := by
      simp only [ne_eq, List.map_eq_nil_iff]
      exact List.ne_nil_of_mem hBmem
    have hA : (((face_distance dist encs probe).zip names).filter
          (fun q => decide (q.2 = w))).map Prod.fst
        = ((names.zip (face_distance dist encs probe)).filter
            (fun q => decide (q.1 = w))).map Prod.snd :=
      winner_distances_spec w names (face_distance dist encs probe) hdlen
    have hfc : ((v :: vs).filter (fun q => decide (q.1 = w))).map Prod.snd
        = (((names.zip (face_distance dist encs probe)).filter
              (fun q => decide (q.1 = w))).map Prod.snd).filter
            (fun d => decide (d ≤ tol)) := by
      rw [← hv]
      exact filter_snd_comm w tol (names.zip (face_distance dist encs probe))
    have hAne : (((face_distance dist encs probe).zip names).filter
          (fun q => decide (q.2 = w))).map Prod.fst ≠ [] := by
      rw [hA]
      intro h0
      rw [h0] at hfc
      simp only [List.filter_nil] at hfc
      exact hWDne hfc
    rw [if_pos hAne]
    have hmin : minD ((((face_distance dist encs probe).zip names).filter
          (fun q => decide (q.2 = w))).map Prod.fst)
        = minD (((v :: vs).filter (fun q => decide (q.1 = w))).map Prod.snd) := by
      rw [hA, hfc]
      exact minD_filter_le tol _ (by rw [← hfc]; exact hWDne)
    rw [hmin]

/-- C3 counterexample: cache tags A,B,B,A,A where the first cached entry
(an A) is out of tolerance and the other four vote, leaving A and B tied
at two votes each.  The code elects B (whose first voting entry comes
first in cache order, hence first insertion into the Counter), while the
claimed tie-break — whichever tag appeared first in cache order — elects
A, whose non-voting entry occupies cache position 0. -/
theorem recognize_tie_break_counterexample :
    recognize_face (fun a _ => if a = 0 then (1 : ℚ) else mkRat 1 10)
      { names := ["A", "B", "B", "A", "A"], encodings := ([0, 1, 2, 3, 4] : List Nat) }
      9 (mkRat 9 20)
      = (some "B", some (mkRat 1 10))
    ∧ recognizeClaimLiteral (fun a _ => if a = 0 then (1 : ℚ) else mkRat 1 10)
      { names := ["A", "B", "B", "A", "A"], encodings := ([0, 1, 2, 3, 4] : List Nat) }
      9 (mkRat 9 20)
      = (some "A", some (mkRat 1 10))
    ∧ recognize_face (fun a _ => if a = 0 then (1 : ℚ) else mkRat 1 10)
      { names := ["A", "B", "B", "A", "A"], encodings := ([0, 1, 2, 3, 4] : List Nat) }
      9 (mkRat 9 20)
      ≠ recognizeClaimLiteral (fun a _ => if a = 0 then (1 : ℚ) else mkRat 1 10)
      { names := ["A", "B", "B", "A", "A"], encodings := ([0, 1, 2, 3, 4] : List Nat) }
      9 (mkRat 9 20) := by
  refine ⟨by decide, by decide, by decide⟩

/-- C3 amended: on every non-empty well-formed cache at tolerance 0.45,
the source matcher agrees with the spec description where the plurality
tie-break goes to the tag whose first voting entry appears first in
cache order (first insertion into the vote counter) — not the tag that
appears first among all cached entries; the rest of the claim (votes
from sub-tolerance entries, winner distance as minimum over its own
voting entries, nearest-neighbor fallback accepted only within
tolerance) holds as stated. -/
theorem matcher_vote_then_distance {α : Type} (dist : α → α → ℚ)
    (loaded : Cache α) (probe : α)
    (hlen : loaded.names.length = loaded.encodings.length)
    (hne : loaded.encodings ≠ []) :
    recognize_face dist loaded probe (mkRat 9 20)
      = recognizeSpec dist loaded probe (mkRat 9 20) :=
  recognize_face_eq_spec dist loaded probe (mkRat 9 20) hlen hne

/-- Witness for the amended C3 on a concrete two-entry cache. -/
theorem matcher_vote_then_distance_witness :
    recognize_face (fun a _ => if a = 0 then (1 : ℚ) else mkRat 1 10)
      { names := ["A", "B"], encodings := ([0, 1] : List Nat) } 9 (mkRat 9 20)
      = recognizeSpec (fun a _ => if a = 0 then (1 : ℚ) else mkRat 1 10)
        { names := ["A", "B"], encodings := ([0, 1] : List Nat) } 9 (mkRat 9 20) :=
  matcher_vote_then_distance (fun a _ => if a = 0 then (1 : ℚ) else mkRat 1 10)
    { names := ["A", "B"], encodings := ([0, 1] : List Nat) } 9 (by decide) (by decide)

end Ciphera
